import Mathlib

/-!
# Checkout pipeline of `service/cart`

A shallow embedding of `service/cart/service.go` (`getCartItemsID`,
`createOrder`, `checkIfCartIsInStock`, `calculateTotalPrice`) and of
`validateProduct` and `handleCreateProduct` of `service/product/routes.go`,
together with the properties of the checkout specification that concern them.

Modelling conventions

* Go `int` is a 64-bit two's-complement integer: values are `Int`s and the one
  arithmetic operation of the package that can leave the range
  (`product.Quantity -= item.Quantity`) is wrapped by `wrapInt`.
* Go `float64` is IEEE 754 binary64, modelled by `Float64` with its infinities,
  NaN and signed zeros; `+`, `*` and `float64(i)` round to nearest, ties to
  even, one operation at a time (no fused multiply-add, as on amd64).
* A price field holds a finite `float64`, given by its exact value in `ℚ`
  (prices enter through `encoding/json`, which yields no NaN and no infinity);
  `Float64.ofRat` is its `float64`.  A total is the result of arithmetic and is
  a `Float64`.
* A Go `error` is an `Option Error`: `none` is `nil`.  Each `fmt.Errorf` site
  of the package is one constructor of `Error`, carrying the formatted argument.
* `map[int]types.Product` is a finite association built by successive
  insertion; reading an absent key yields the zero `Product`, as in Go.
* The stores are interfaces (`types.ProductStore`, `types.OrderStore`): their
  behaviour is a parameter of the model, and every call is recorded in a log.
-/

namespace Cart

/-! ## Go `float64` -/

/-- Go `float64`: an IEEE 754 binary64 value.  `finite neg m e` is
`(-1)^neg * m * 2^e` with `m < 2^53` and `-1074 ≤ e ≤ 971`, normalised so that
`2^52 ≤ m` (normal) or `e = -1074` (subnormal or zero). -/
inductive Float64 where
  | finite (neg : Bool) (m : Nat) (e : Int)
  | inf (neg : Bool)
  | nan
deriving DecidableEq, Repr

/-- The number of binary digits of `n`, with `fuel` at least that number. -/
def bitLengthAux : Nat → Nat → Nat
  | 0, _ => 0
  | fuel + 1, n => if n = 0 then 0 else bitLengthAux fuel (n / 2) + 1

/-- The number of binary digits of `n` (`0` for `0`). -/
def bitLength (n : Nat) : Nat := bitLengthAux n n

/-- The float64 `+0`, the zero value of the type. -/
def Float64.zero : Float64 := Float64.finite false 0 (-1074)

instance : OfNat Float64 0 := ⟨Float64.zero⟩

/-- Rounding to nearest, ties to even: the float64 of the real number
`(-1)^neg * m * 2^e`, for any `m` and `e`; values of magnitude `2^1024` or more
after rounding become an infinity. -/
def Float64.round (neg : Bool) (m : Nat) (e : Int) : Float64 :=
  if m = 0 then Float64.finite neg 0 (-1074)
  else
    let e1 : Int := max (e + (bitLength m : Int) - 53) (-1074)
    if e1 ≤ e then
      if 971 < e1 then Float64.inf neg
      else Float64.finite neg (m * 2 ^ (e - e1).toNat) e1
    else
      let k : Nat := (e1 - e).toNat
      let q : Nat := m / 2 ^ k
      let r : Nat := m % 2 ^ k
      let half : Nat := 2 ^ (k - 1)
      let q1 : Nat := if half < r ∨ (r = half ∧ q % 2 = 1) then q + 1 else q
      let m2 : Nat := if q1 = 2 ^ 53 then 2 ^ 52 else q1
      let e2 : Int := if q1 = 2 ^ 53 then e1 + 1 else e1
      if 971 < e2 then Float64.inf neg else Float64.finite neg m2 e2

/-- Go `float64(i)` for an `int`. -/
def Float64.ofInt (i : Int) : Float64 :=
  Float64.round (decide (i < 0)) i.natAbs 0

/-- The float64 nearest to a rational (ties to even): the value Go gives to a
decimal constant and `encoding/json` to a number; it is the identity on the
value of a finite float64.  The quotient is taken to at least 56 bits and a
sticky bit records a non-zero remainder. -/
def Float64.ofRat (x : ℚ) : Float64 :=
  let a : Nat := x.num.natAbs
  let d : Nat := x.den
  let k : Nat := (56 + (bitLength d : Int) - (bitLength a : Int)).toNat
  let q : Nat := a * 2 ^ k / d
  let sticky : Nat := if a * 2 ^ k % d = 0 then 0 else 1
  Float64.round (decide (x < 0)) (2 * q + sticky) (-(k : Int) - 1)

/-- The signed integer `(-1)^neg * m`. -/
def signedMantissa (neg : Bool) (m : Nat) : Int := if neg then -(m : Int) else (m : Int)

/-- Go `x + y` on `float64`. -/
def Float64.add : Float64 → Float64 → Float64
  | Float64.nan, _ => Float64.nan
  | _, Float64.nan => Float64.nan
  | Float64.inf a, Float64.inf b => if a = b then Float64.inf a else Float64.nan
  | Float64.inf a, Float64.finite _ _ _ => Float64.inf a
  | Float64.finite _ _ _, Float64.inf b => Float64.inf b
  | Float64.finite s1 m1 e1, Float64.finite s2 m2 e2 =>
    let e : Int := min e1 e2
    let c : Int := signedMantissa s1 m1 * 2 ^ (e1 - e).toNat + signedMantissa s2 m2 * 2 ^ (e2 - e).toNat
    if c = 0 then Float64.finite (s1 && s2) 0 (-1074)
    else Float64.round (decide (c < 0)) c.natAbs e

/-- Go `x * y` on `float64`. -/
def Float64.mul : Float64 → Float64 → Float64
  | Float64.nan, _ => Float64.nan
  | _, Float64.nan => Float64.nan
  | Float64.inf a, Float64.inf b => Float64.inf (xor a b)
  | Float64.inf a, Float64.finite s m _ => if m = 0 then Float64.nan else Float64.inf (xor a s)
  | Float64.finite s m _, Float64.inf b => if m = 0 then Float64.nan else Float64.inf (xor s b)
  | Float64.finite s1 m1 e1, Float64.finite s2 m2 e2 =>
    Float64.round (xor s1 s2) (m1 * m2) (e1 + e2)

/-- The real value of a finite float64; none for an infinity or NaN. -/
def Float64.value : Float64 → Option ℚ
  | Float64.finite neg m e =>
    some (mkRat (signedMantissa neg m * 2 ^ e.toNat) (2 ^ (-e).toNat))
  | _ => none

/-! ## Data model (`types` package, fields as used by the cart service) -/

/-- Modelled from the spec: the declaration of `types.Product` (package `types`)
is not among the sources.  The fields are those of the specification's Product
(id, name, unitPrice, availableQuantity) under the names the code uses. -/
structure Product where
  ID : Int
  Name : String
  Price : ℚ
  Quantity : Int
deriving DecidableEq, Repr

/-- Modelled from the spec: the declaration of `types.CartItem` is not among the
sources.  The fields are those of the specification's CartLine (productID,
quantity); `Quantity` is a Go `int`, so it may be zero or negative. -/
structure CartItem where
  ProductID : Int
  Quantity : Int
deriving DecidableEq, Repr

/-- Modelled from the spec: the declaration of `types.Order` is not among the
sources.  The fields are the four that the literal in `createOrder` sets
(userID, totalPrice, status, shippingAddress in the specification). -/
structure Order where
  UserID : Int
  Total : Float64
  Status : String
  Address : String
deriving DecidableEq, Repr

/-- Modelled from the spec: the declaration of `types.OrderItem` is not among the
sources.  The fields are the four that the literal in `createOrder` sets
(orderID, productID, quantity, unitPriceAtPurchase in the specification). -/
structure OrderItem where
  OrderID : Int
  ProductID : Int
  Quantity : Int
  Price : ℚ
deriving DecidableEq, Repr

/-- The errors of the package: one constructor per `fmt.Errorf` call, and
`store` for the opaque errors returned by a store. -/
inductive Error where
  /-- Message `"Invalid quantity for the product %d"`. -/
  | invalidQuantity (productID : Int)
  /-- Message `"Cart is empty"`. -/
  | emptyCart
  /-- Message `"Product %d is not available in the store, please refresh your cart"`. -/
  | productUnavailable (productID : Int)
  /-- Message `"Product %s is not available in the quantity requested"`. -/
  | insufficientStock (productName : String)
  /-- An error returned by a store operation. -/
  | store (msg : String)
deriving DecidableEq, Repr

/-- Two's-complement wrap-around of a 64-bit Go `int`. -/
def wrapInt (x : Int) : Int :=
  (x + 9223372036854775808) % 18446744073709551616 - 9223372036854775808

/-- Largest Go `int`. -/
def maxInt : Int := 9223372036854775807

/-- Smallest Go `int`. -/
def minInt : Int := -9223372036854775808

/-- The zero value of `types.Product`. -/
def zeroProduct : Product := { ID := 0, Name := "", Price := 0, Quantity := 0 }

/-! ## `map[int]types.Product` -/

/-- A Go `map[int]types.Product`, read through its lookup. -/
abbrev ProductMap := Int → Option Product

/-- The result of `make(map[int]types.Product)`. -/
def emptyMap : ProductMap := fun _ => none

/-- The assignment `m[k] = v`. -/
def mapSet (m : ProductMap) (k : Int) (v : Product) : ProductMap :=
  fun k' => if k' = k then some v else m k'

/-- The expression `m[k]`: the zero value when the key is absent. -/
def mapGet (m : ProductMap) (k : Int) : Product :=
  (m k).getD zeroProduct

/-- The first loop of `createOrder`: `productMap[product.ID] = product`. -/
def buildProductMap (products : List Product) : ProductMap :=
  products.foldl (fun m product => mapSet m product.ID product) emptyMap

/-! ## `getCartItemsID` -/

/-- The loop of `getCartItemsID`, at index `i`, with `productsIds` so far. -/
def getCartItemsIDLoop : List CartItem → Nat → List Int → Option (List Int) × Option Error
  | [], _, productsIds => (some productsIds, none)
  | item :: rest, i, productsIds =>
    if item.Quantity ≤ 0 then
      (none, some (Error.invalidQuantity item.ProductID))
    else
      getCartItemsIDLoop rest (i + 1) (productsIds.set i item.ProductID)

/-- Go `getCartItemsID`: the pair `([]int, error)`; `none` is the `nil` slice. -/
def getCartItemsID (items : List CartItem) : Option (List Int) × Option Error :=
  getCartItemsIDLoop items 0 (List.replicate items.length 0)

/-! ## `checkIfCartIsInStock` and `calculateTotalPrice` -/

/-- The `for` loop of `checkIfCartIsInStock`. -/
def checkLines (products : ProductMap) : List CartItem → Option Error
  | [] => none
  | item :: rest =>
    match products item.ProductID with
    | none => some (Error.productUnavailable item.ProductID)
    | some product =>
      if product.Quantity < item.Quantity then
        some (Error.insufficientStock product.Name)
      else
        checkLines products rest

/-- Go `checkIfCartIsInStock`. -/
def checkIfCartIsInStock (cartItems : List CartItem) (products : ProductMap) : Option Error :=
  if cartItems.length = 0 then some Error.emptyCart
  else checkLines products cartItems

/-- The loop of `calculateTotalPrice`, from the running `total`:
`total += product.Price * float64(item.Quantity)`, in `float64` arithmetic. -/
def calculateTotalPriceLoop (products : ProductMap) : List CartItem → Float64 → Float64
  | [], total => total
  | item :: rest, total =>
    let product := mapGet products item.ProductID
    calculateTotalPriceLoop products rest
      (Float64.add total
        (Float64.mul (Float64.ofRat product.Price) (Float64.ofInt item.Quantity)))

/-- Go `calculateTotalPrice`; `var total float64` starts at `+0`. -/
def calculateTotalPrice (cartItems : List CartItem) (products : ProductMap) : Float64 :=
  calculateTotalPriceLoop products cartItems 0

/-! ## Stores and `createOrder` -/

/-- A call made on one of the stores. -/
inductive StoreCall where
  | updateProduct (product : Product)
  | createOrder (order : Order)
  | createOrderItem (orderItem : OrderItem)
deriving DecidableEq, Repr

/-- The store operations `createOrder` uses, over a store state `σ`:
`ProductStore.UpdateProduct`, `OrderStore.CreateOrder` and
`OrderStore.CreateOrderItem`.  The interfaces are declared in package `types`,
which is not among the sources, and their implementations are behind a
database: both are parameters here, an operation being any function from its
argument and the state to its Go result and the next state. -/
structure Stores (σ : Type) where
  UpdateProduct : Product → σ → Option Error × σ
  CreateOrder : Order → σ → (Int × Option Error) × σ
  CreateOrderItem : OrderItem → σ → Option Error × σ

/-- The state of the stores and the calls made so far, oldest first. -/
structure World (σ : Type) where
  state : σ
  log : List StoreCall

/-- The body of the stock loop of `createOrder` (lines 35-36): the copy of the
mapped product with `Quantity -= item.Quantity`. -/
def decrementStock (productMap : ProductMap) (item : CartItem) : Product :=
  let product := mapGet productMap item.ProductID
  { product with Quantity := wrapInt (product.Quantity - item.Quantity) }

/-- The stock loop of `createOrder`; the error of `UpdateProduct` is dropped. -/
def updateStock {σ : Type} (h : Stores σ) (productMap : ProductMap) :
    List CartItem → World σ → World σ
  | [], w => w
  | item :: rest, w =>
    let product := decrementStock productMap item
    let r := h.UpdateProduct product w.state
    updateStock h productMap rest
      { state := r.2, log := w.log ++ [StoreCall.updateProduct product] }

/-- The `types.OrderItem` literal of `createOrder` (lines 53-58). -/
def newOrderItem (productMap : ProductMap) (orderID : Int) (item : CartItem) : OrderItem :=
  { OrderID := orderID, ProductID := item.ProductID, Quantity := item.Quantity,
    Price := (mapGet productMap item.ProductID).Price }

/-- The line-item loop of `createOrder`; the error of `CreateOrderItem` is dropped. -/
def createOrderItems {σ : Type} (h : Stores σ) (productMap : ProductMap) (orderID : Int) :
    List CartItem → World σ → World σ
  | [], w => w
  | item :: rest, w =>
    let orderItem := newOrderItem productMap orderID item
    let r := h.CreateOrderItem orderItem w.state
    createOrderItems h productMap orderID rest
      { state := r.2, log := w.log ++ [StoreCall.createOrderItem orderItem] }

/-- The value `(int, float64, error)` returned by `createOrder`. -/
structure Result where
  orderID : Int
  totalPrice : Float64
  err : Option Error
deriving DecidableEq, Repr

/-- Go `(*Handler).createOrder`, run from the world `w`. -/
def createOrder {σ : Type} (h : Stores σ) (products : List Product) (items : List CartItem)
    (userID : Int) (w : World σ) : Result × World σ :=
  let productMap := buildProductMap products
  match checkIfCartIsInStock items productMap with
  | some _ => ({ orderID := 0, totalPrice := 0, err := none }, w)
  | none =>
    let totalPrice := calculateTotalPrice items productMap
    let w1 := updateStock h productMap items w
    let order : Order :=
      { UserID := userID, Total := totalPrice, Status := "pending", Address := "address" }
    let r := h.CreateOrder order w1.state
    let w2 : World σ := { state := r.2, log := w1.log ++ [StoreCall.createOrder order] }
    match r.1.2 with
    | some err => ({ orderID := 0, totalPrice := 0, err := some err }, w2)
    | none =>
      let orderID := r.1.1
      let w3 := createOrderItems h productMap orderID items w2
      ({ orderID := orderID, totalPrice := totalPrice, err := none }, w3)

/-! ## Reference stores -/

/-- Stores whose operations all succeed; `CreateOrder` assigns the id `orderID`. -/
def okStores (orderID : Int) : Stores Unit where
  UpdateProduct := fun _ s => (none, s)
  CreateOrder := fun _ s => ((orderID, none), s)
  CreateOrderItem := fun _ s => (none, s)

/-- Stores in which `UpdateProduct` and `CreateOrderItem` always fail. -/
def failingStores (orderID : Int) : Stores Unit where
  UpdateProduct := fun _ s => (some (Error.store "product not found"), s)
  CreateOrder := fun _ s => ((orderID, none), s)
  CreateOrderItem := fun _ s => (some (Error.store "insert failed"), s)

/-- The world before any call. -/
def World.init : World Unit := { state := (), log := [] }

/-- The product list of the repository's tests (`routes_test.go`). -/
def testProducts : List Product :=
  [{ ID := 1, Name := "Test Product 1", Price := 9.99, Quantity := 10 },
   { ID := 2, Name := "Test Product 2", Price := 19.99, Quantity := 20 }]

/-- The cart of the pricing example: two units of product 1, one of product 2. -/
def pricingCart : List CartItem := [⟨1, 2⟩, ⟨2, 1⟩]

/-- A cart with two lines on product 1. -/
def repeatCart : List CartItem := [⟨1, 2⟩, ⟨1, 3⟩]

/-- A product whose stock is the largest Go `int`. -/
def fullStockProducts : List Product :=
  [{ ID := 1, Name := "Test Product 1", Price := 1, Quantity := maxInt }]

/-- A product priced 0.1, stocked at 10. -/
def tenthProducts : List Product :=
  [{ ID := 1, Name := "Test Product 1", Price := 0.1, Quantity := 10 }]

/-- Three units of product 1. -/
def tenthCart : List CartItem := [⟨1, 3⟩]

/-- The whole stock of the test products: 20 units of product 2, then 10 of
product 1. -/
def stockCart : List CartItem := [⟨2, 20⟩, ⟨1, 10⟩]

/-! ## Observations on the log of store calls -/

/-- The products passed to `UpdateProduct`, oldest first. -/
def updatedProducts : List StoreCall → List Product
  | [] => []
  | StoreCall.updateProduct product :: rest => product :: updatedProducts rest
  | _ :: rest => updatedProducts rest

/-- The orders passed to `CreateOrder`, oldest first. -/
def createdOrders : List StoreCall → List Order
  | [] => []
  | StoreCall.createOrder order :: rest => order :: createdOrders rest
  | _ :: rest => createdOrders rest

/-- The order items passed to `CreateOrderItem`, oldest first. -/
def createdOrderItems : List StoreCall → List OrderItem
  | [] => []
  | StoreCall.createOrderItem orderItem :: rest => orderItem :: createdOrderItems rest
  | _ :: rest => createdOrderItems rest

/-- The persisted state of product `id`: the value of the last `UpdateProduct`
for that id, if there is one. -/
def lastUpdate (log : List StoreCall) (id : Int) : Option Product :=
  ((updatedProducts log).filter fun product => product.ID = id).getLast?

/-- The sum over the created order items of quantity times price. -/
def lineItemsTotal (log : List StoreCall) : ℚ :=
  ((createdOrderItems log).map fun orderItem =>
    (orderItem.Quantity : ℚ) * orderItem.Price).sum

/-- The exact sum over the created order items of quantity times the value of
the `float64` that holds the price. -/
def lineItemsStoredTotal (log : List StoreCall) : ℚ :=
  ((createdOrderItems log).map fun orderItem =>
    (orderItem.Quantity : ℚ) * ((Float64.ofRat orderItem.Price).value.getD 0)).sum

/-- The `float64` sum over the created order items, in creation order from
`+0`, of price times `float64(quantity)`. -/
def lineItemsFloatTotal (log : List StoreCall) : Float64 :=
  (createdOrderItems log).foldl
    (fun total orderItem =>
      Float64.add total
        (Float64.mul (Float64.ofRat orderItem.Price) (Float64.ofInt orderItem.Quantity)))
    0

/-- Every operation of the stores succeeds, in every state. -/
def Stores.AllSucceed {σ : Type} (h : Stores σ) : Prop :=
  (∀ product s, (h.UpdateProduct product s).1 = none) ∧
  (∀ order s, (h.CreateOrder order s).1.2 = none) ∧
  (∀ orderItem s, (h.CreateOrderItem orderItem s).1 = none)

/-- A line is available: its product is in the map with enough stock. -/
def LineAvailable (products : ProductMap) (item : CartItem) : Prop :=
  ∃ product, products item.ProductID = some product ∧ item.Quantity ≤ product.Quantity

/-- A valid cart, as `handleCheckout` sees it: `getCartItemsID` returns no error
and `checkIfCartIsInStock` returns no error against the map of the products. -/
def ValidCart (products : List Product) (items : List CartItem) : Prop :=
  (getCartItemsID items).2 = none ∧
    checkIfCartIsInStock items (buildProductMap products) = none

/-! ## `service/product`: `validateProduct` and `handleCreateProduct` -/

/-- The errors that `handleCreateProduct` hands to `utils.WriteError`: one
constructor per `fmt.Errorf` call of `validateProduct`, `decode` for the error
of the JSON decoder and `store` for the error of the store. -/
inductive ProductError where
  /-- Message `"Product name is required"`. -/
  | nameRequired
  /-- Message `"Product price must be greater than zero"`. -/
  | priceNotPositive
  /-- Message `"Product quantity cannot be negative"`. -/
  | quantityNegative
  /-- An error returned by `json.NewDecoder(r.Body).Decode`. -/
  | decode (msg : String)
  /-- An error returned by `CreateProduct`. -/
  | store (msg : String)
deriving DecidableEq, Repr

/-- Go `validateProduct`. -/
def validateProduct (product : Product) : Option ProductError :=
  if product.Name = "" then some ProductError.nameRequired
  else if product.Price ≤ 0 then some ProductError.priceNotPositive
  else if product.Quantity < 0 then some ProductError.quantityNegative
  else none

/-- Go `http.StatusBadRequest`. -/
def StatusBadRequest : Nat := 400

/-- Go `http.StatusInternalServerError`. -/
def StatusInternalServerError : Nat := 500

/-- Go `http.StatusCreated`. -/
def StatusCreated : Nat := 201

/-- What a handler writes to its `http.ResponseWriter`: the arguments of its
call to `utils.WriteError` or to `utils.WriteJSON` (package `utils` is not
among the sources; the tests read the status back as the response code). -/
inductive Response where
  | writeError (status : Nat) (err : ProductError)
  | writeJSON (status : Nat) (product : Product)
deriving DecidableEq, Repr

/-- The store operation `handleCreateProduct` uses, over a store state `σ`:
`ProductStore.CreateProduct(product *types.Product) error`, which may write
through its pointer (the mock of the tests sets the id); it yields the product
after the call, the error and the next state. -/
structure ProductStore (σ : Type) where
  CreateProduct : Product → σ → (Product × Option ProductError) × σ

/-- The outcome of a handler: the response written, the state of the store and
the products passed to `CreateProduct`, oldest first. -/
structure Outcome (σ : Type) where
  response : Response
  state : σ
  created : List Product

/-- Go `(*Handler).handleCreateProduct` of package `product`.  The request is
given by the result `body` of decoding its JSON body into a `types.Product`. -/
def handleCreateProduct {σ : Type} (h : ProductStore σ) (body : Except ProductError Product)
    (s : σ) : Outcome σ :=
  match body with
  | Except.error err =>
    { response := Response.writeError StatusBadRequest err, state := s, created := [] }
  | Except.ok decoded =>
    let product := { decoded with ID := 0 }
    match validateProduct product with
    | some err =>
      { response := Response.writeError StatusBadRequest err, state := s, created := [] }
    | none =>
      let r := h.CreateProduct product s
      match r.1.2 with
      | some err =>
        { response := Response.writeError StatusInternalServerError err, state := r.2,
          created := [product] }
      | none =>
        { response := Response.writeJSON StatusCreated r.1.1, state := r.2,
          created := [product] }

/-- The mock store of `routes_test.go`: `CreateProduct` sets the id to one more
than the number of stored products and appends the product. -/
def mockProductStore : ProductStore (List Product) where
  CreateProduct := fun product products =>
    let product := { product with ID := (products.length : Int) + 1 }
    ((product, none), products ++ [product])

/-- The payload of the test "Should fail to create a product with invalid data". -/
def invalidPayload : Product := { ID := 0, Name := "", Price := 0, Quantity := -1 }

/-! ## Lemmas on the loops -/

theorem checkLines_eq_none_iff (products : ProductMap) (cartItems : List CartItem) :
    checkLines products cartItems = none ↔ ∀ x ∈ cartItems, LineAvailable products x := by
  induction cartItems with
  | nil => simp [checkLines]
  | cons item rest ih =>
    simp only [checkLines, List.mem_cons, forall_eq_or_imp, LineAvailable]
    cases hp : products item.ProductID with
    | none => simp
    | some p =>
      by_cases hq : p.Quantity < item.Quantity
      · simp [hq]
      · simpa [hq, not_lt.mp hq, LineAvailable] using ih

theorem checkLines_append_of_available (products : ProductMap) (pre rest : List CartItem)
    (hpre : ∀ x ∈ pre, LineAvailable products x) :
    checkLines products (pre ++ rest) = checkLines products rest := by
  induction pre with
  | nil => rfl
  | cons item pre ih =>
    obtain ⟨p, hp, hq⟩ := hpre item (List.mem_cons_self _ _)
    have ih2 := ih (fun x hx => hpre x (List.mem_cons_of_mem _ hx))
    simp [checkLines, hp, not_lt.mpr hq, ih2]

theorem checkIfCartIsInStock_eq_none_iff (cartItems : List CartItem) (products : ProductMap) :
    checkIfCartIsInStock cartItems products = none ↔
      cartItems ≠ [] ∧ ∀ x ∈ cartItems, LineAvailable products x := by
  unfold checkIfCartIsInStock
  by_cases he : cartItems = []
  · simp [he]
  · have hl : cartItems.length ≠ 0 := by simpa using he
    simp [hl, he, checkLines_eq_none_iff]

theorem createOrder_of_rejected {σ : Type} (h : Stores σ) (products : List Product)
    (items : List CartItem) (userID : Int) (w : World σ)
    (hrej : checkIfCartIsInStock items (buildProductMap products) ≠ none) :
    createOrder h products items userID w =
      ({ orderID := 0, totalPrice := 0, err := none }, w) := by
  cases hc : checkIfCartIsInStock items (buildProductMap products) with
  | none => exact absurd hc hrej
  | some e => simp only [createOrder, hc]

theorem calculateTotalPriceLoop_eq_foldl (products : ProductMap) (cartItems : List CartItem)
    (total : Float64) :
    calculateTotalPriceLoop products cartItems total =
      (cartItems.map fun item =>
        Float64.mul (Float64.ofRat (mapGet products item.ProductID).Price)
          (Float64.ofInt item.Quantity)).foldl Float64.add total := by
  induction cartItems generalizing total with
  | nil => simp [calculateTotalPriceLoop]
  | cons item rest ih =>
    simp only [calculateTotalPriceLoop, List.map_cons, List.foldl_cons]
    rw [ih]

theorem calculateTotalPriceLoop_eq_items (products : ProductMap) (orderID : Int)
    (cartItems : List CartItem) (total : Float64) :
    calculateTotalPriceLoop products cartItems total =
      (cartItems.map (newOrderItem products orderID)).foldl
        (fun total orderItem =>
          Float64.add total
            (Float64.mul (Float64.ofRat orderItem.Price) (Float64.ofInt orderItem.Quantity)))
        total := by
  induction cartItems generalizing total with
  | nil => simp [calculateTotalPriceLoop]
  | cons item rest ih =>
    simp only [calculateTotalPriceLoop, List.map_cons, List.foldl_cons]
    rw [ih]
    rfl

theorem getCartItemsIDLoop_err_iff (items : List CartItem) (i : Nat) (productsIds : List Int) :
    (getCartItemsIDLoop items i productsIds).2 ≠ none ↔ ∃ item ∈ items, item.Quantity ≤ 0 := by
  induction items generalizing i productsIds with
  | nil => simp [getCartItemsIDLoop]
  | cons item rest ih =>
    by_cases hq : item.Quantity ≤ 0
    · simp [getCartItemsIDLoop, hq]
    · simp [getCartItemsIDLoop, hq, ih]

theorem getCartItemsIDLoop_first_bad (pre : List CartItem) (item : CartItem) (post : List CartItem)
    (i : Nat) (productsIds : List Int)
    (hpre : ∀ x ∈ pre, 0 < x.Quantity) (hbad : item.Quantity ≤ 0) :
    getCartItemsIDLoop (pre ++ item :: post) i productsIds =
      (none, some (Error.invalidQuantity item.ProductID)) := by
  induction pre generalizing i productsIds with
  | nil => simp [getCartItemsIDLoop, hbad]
  | cons x pre ih =>
    have hx : ¬ x.Quantity ≤ 0 := not_le.mpr (hpre x (List.mem_cons_self _ _))
    simp only [List.cons_append, getCartItemsIDLoop, hx, if_false]
    exact ih _ _ (fun y hy => hpre y (List.mem_cons_of_mem _ hy))

theorem getCartItemsIDLoop_ok (seen rest : List CartItem) (hpos : ∀ x ∈ rest, 0 < x.Quantity) :
    getCartItemsIDLoop rest seen.length
        (seen.map (fun x : CartItem => x.ProductID) ++ List.replicate rest.length 0) =
      (some ((seen ++ rest).map fun x : CartItem => x.ProductID), none) := by
  induction rest generalizing seen with
  | nil => simp [getCartItemsIDLoop]
  | cons item rest ih =>
    have hx : ¬ item.Quantity ≤ 0 := not_le.mpr (hpos item (List.mem_cons_self _ _))
    simp only [getCartItemsIDLoop, hx, if_false]
    have hset : (seen.map (fun x : CartItem => x.ProductID) ++ List.replicate (item :: rest).length 0).set
        seen.length item.ProductID =
        (seen ++ [item]).map (fun x : CartItem => x.ProductID) ++ List.replicate rest.length 0 := by
      simp [List.replicate_succ, List.set_append]
    rw [hset]
    have := ih (seen ++ [item]) (fun y hy => hpos y (List.mem_cons_of_mem _ hy))
    simpa using this

theorem wrapInt_of_inRange (x : Int) (hlo : minInt ≤ x) (hhi : x ≤ maxInt) : wrapInt x = x := by
  unfold wrapInt
  unfold minInt at hlo
  unfold maxInt at hhi
  omega

theorem buildProductMap_foldl_mem (products : List Product) (m : ProductMap) (k : Int)
    (p : Product)
    (hp : products.foldl (fun m product => mapSet m product.ID product) m k = some p) :
    p ∈ products ∨ m k = some p := by
  induction products generalizing m with
  | nil => exact Or.inr hp
  | cons q rest ih =>
    rcases ih (mapSet m q.ID q) hp with hmem | hset
    · exact Or.inl (List.mem_cons_of_mem _ hmem)
    · unfold mapSet at hset
      by_cases hk : k = q.ID
      · simp only [hk, if_true, Option.some.injEq] at hset
        exact Or.inl (hset ▸ List.mem_cons_self _ _)
      · simp only [hk, if_false] at hset
        exact Or.inr hset

theorem buildProductMap_mem (products : List Product) (k : Int) (p : Product)
    (hp : buildProductMap products k = some p) : p ∈ products := by
  rcases buildProductMap_foldl_mem products emptyMap k p hp with hmem | hempty
  · exact hmem
  · simp [emptyMap] at hempty

theorem updateStock_log {σ : Type} (h : Stores σ) (productMap : ProductMap)
    (items : List CartItem) (w : World σ) :
    (updateStock h productMap items w).log =
      w.log ++ items.map fun item => StoreCall.updateProduct (decrementStock productMap item) := by
  induction items generalizing w with
  | nil => simp [updateStock]
  | cons item rest ih => simp [updateStock, ih]

theorem createOrderItems_log {σ : Type} (h : Stores σ) (productMap : ProductMap) (orderID : Int)
    (items : List CartItem) (w : World σ) :
    (createOrderItems h productMap orderID items w).log =
      w.log ++ items.map fun item =>
        StoreCall.createOrderItem (newOrderItem productMap orderID item) := by
  induction items generalizing w with
  | nil => simp [createOrderItems]
  | cons item rest ih => simp [createOrderItems, ih]

theorem updatedProducts_append (l₁ l₂ : List StoreCall) :
    updatedProducts (l₁ ++ l₂) = updatedProducts l₁ ++ updatedProducts l₂ := by
  induction l₁ with
  | nil => rfl
  | cons c rest ih => cases c <;> simp [updatedProducts, ih]

theorem createdOrders_append (l₁ l₂ : List StoreCall) :
    createdOrders (l₁ ++ l₂) = createdOrders l₁ ++ createdOrders l₂ := by
  induction l₁ with
  | nil => rfl
  | cons c rest ih => cases c <;> simp [createdOrders, ih]

theorem createdOrderItems_append (l₁ l₂ : List StoreCall) :
    createdOrderItems (l₁ ++ l₂) = createdOrderItems l₁ ++ createdOrderItems l₂ := by
  induction l₁ with
  | nil => rfl
  | cons c rest ih => cases c <;> simp [createdOrderItems, ih]

theorem updatedProducts_map_update (f : CartItem → Product) (items : List CartItem) :
    updatedProducts (items.map fun item => StoreCall.updateProduct (f item)) = items.map f := by
  induction items with
  | nil => rfl
  | cons item rest ih => simp [updatedProducts, ih]

theorem updatedProducts_map_item (f : CartItem → OrderItem) (items : List CartItem) :
    updatedProducts (items.map fun item => StoreCall.createOrderItem (f item)) = [] := by
  induction items with
  | nil => rfl
  | cons item rest ih => simp [updatedProducts, ih]

theorem createdOrders_map_update (f : CartItem → Product) (items : List CartItem) :
    createdOrders (items.map fun item => StoreCall.updateProduct (f item)) = [] := by
  induction items with
  | nil => rfl
  | cons item rest ih => simp [createdOrders, ih]

theorem createdOrders_map_item (f : CartItem → OrderItem) (items : List CartItem) :
    createdOrders (items.map fun item => StoreCall.createOrderItem (f item)) = [] := by
  induction items with
  | nil => rfl
  | cons item rest ih => simp [createdOrders, ih]

theorem createdOrderItems_map_update (f : CartItem → Product) (items : List CartItem) :
    createdOrderItems (items.map fun item => StoreCall.updateProduct (f item)) = [] := by
  induction items with
  | nil => rfl
  | cons item rest ih => simp [createdOrderItems, ih]

theorem createdOrderItems_map_item (f : CartItem → OrderItem) (items : List CartItem) :
    createdOrderItems (items.map fun item => StoreCall.createOrderItem (f item)) =
      items.map f := by
  induction items with
  | nil => rfl
  | cons item rest ih => simp [createdOrderItems, ih]

/-- The log of a `createOrder` whose cart passes the stock check: the stock
updates of the lines, then the order, then (when `CreateOrder` returned no
error) the order items of the lines. -/
theorem createOrder_log_of_inStock {σ : Type} (h : Stores σ) (products : List Product)
    (items : List CartItem) (userID : Int) (w : World σ)
    (hstock : checkIfCartIsInStock items (buildProductMap products) = none) :
    ∃ (orderID : Int) (e : Option Error),
      (h.CreateOrder
        { UserID := userID, Total := calculateTotalPrice items (buildProductMap products),
          Status := "pending", Address := "address" }
        (updateStock h (buildProductMap products) items w).state).1 = (orderID, e) ∧
      (createOrder h products items userID w).1 =
        (match e with
          | some err => { orderID := 0, totalPrice := 0, err := some err }
          | none =>
            { orderID := orderID,
              totalPrice := calculateTotalPrice items (buildProductMap products),
              err := none }) ∧
      (createOrder h products items userID w).2.log =
        w.log ++
          (items.map fun item =>
            StoreCall.updateProduct (decrementStock (buildProductMap products) item)) ++
          [StoreCall.createOrder
            { UserID := userID, Total := calculateTotalPrice items (buildProductMap products),
              Status := "pending", Address := "address" }] ++
          (match e with
            | some _ => []
            | none => items.map fun item =>
                StoreCall.createOrderItem
                  (newOrderItem (buildProductMap products) orderID item)) := by
  refine ⟨_, _, rfl, ?_⟩
  simp only [createOrder, hstock]
  split
  · rename_i err herr
    simp [herr, updateStock_log]
  · rename_i herr
    simp [herr, updateStock_log, createOrderItems_log]

/-! ## Claims -/

/-- C1 (as the code behaves): whenever `checkIfCartIsInStock` rejects the cart,
`createOrder` returns order id 0, total 0 and a nil error, so the caller is told
of no failure; the specification asks for a non-nil error here. -/
theorem createOrder_rejected_cart_returns_nil_error {σ : Type} (h : Stores σ)
    (products : List Product) (items : List CartItem) (userID : Int) (w : World σ)
    (hrej : checkIfCartIsInStock items (buildProductMap products) ≠ none) :
    (createOrder h products items userID w).1 = { orderID := 0, totalPrice := 0, err := none } := by
  rw [createOrder_of_rejected h products items userID w hrej]

/-- The empty cart is rejected with `"Cart is empty"`, and `createOrder` on it
reports order id 0, total 0 and no error. -/
theorem createOrder_rejected_cart_returns_nil_error_witness :
    checkIfCartIsInStock [] (buildProductMap testProducts) = some Error.emptyCart ∧
    (createOrder (okStores 1) testProducts [] 1 World.init).1 =
      { orderID := 0, totalPrice := 0, err := none } :=
  ⟨by decide,
   createOrder_rejected_cart_returns_nil_error (okStores 1) testProducts [] 1 World.init
     (by decide)⟩

/-- C2: `checkIfCartIsInStock` is fail-fast in cart order.  An empty cart gives
the `emptyCart` error; if the lines before a line are all available, then the
result is `productUnavailable` with that line's product id when the id is absent
from the map, and `insufficientStock` when the mapped product has less stock
than the line asks; and the result is nil exactly when the cart is non-empty and
every line's product is in the map with stock at least the quantity. -/
theorem checkIfCartIsInStock_fail_fast (cartItems : List CartItem) (products : ProductMap) :
    (cartItems = [] → checkIfCartIsInStock cartItems products = some Error.emptyCart) ∧
    (∀ (pre : List CartItem) (item : CartItem) (post : List CartItem),
      cartItems = pre ++ item :: post →
      (∀ x ∈ pre, ∃ p, products x.ProductID = some p ∧ x.Quantity ≤ p.Quantity) →
      (products item.ProductID = none →
        checkIfCartIsInStock cartItems products =
          some (Error.productUnavailable item.ProductID)) ∧
      (∀ p, products item.ProductID = some p → p.Quantity < item.Quantity →
        checkIfCartIsInStock cartItems products = some (Error.insufficientStock p.Name))) ∧
    (checkIfCartIsInStock cartItems products = none ↔
      cartItems ≠ [] ∧
        ∀ x ∈ cartItems, ∃ p, products x.ProductID = some p ∧ x.Quantity ≤ p.Quantity) := by
  refine ⟨?_, ?_, ?_⟩
  · intro he
    simp [checkIfCartIsInStock, he]
  · intro pre item post hsplit hpre
    have hl : cartItems.length ≠ 0 := by simp [hsplit]
    have hcheck : checkIfCartIsInStock cartItems products
        = checkLines products (item :: post) := by
      simp only [checkIfCartIsInStock, hl, if_false]
      rw [hsplit]
      exact checkLines_append_of_available products pre (item :: post) hpre
    refine ⟨?_, ?_⟩
    · intro hnone
      simp [hcheck, checkLines, hnone]
    · intro p hsome hlt
      simp [hcheck, checkLines, hsome, hlt]
  · exact checkIfCartIsInStock_eq_none_iff cartItems products

/-- On the test products, the cart `[(1, 2), (3, 1), (2, 50)]` fails at its
second line (product 3 is unknown) although the third line is short of stock,
and the cart `[(1, 2), (2, 50)]` fails with the name of product 2. -/
theorem checkIfCartIsInStock_fail_fast_witness :
    checkIfCartIsInStock [⟨1, 2⟩, ⟨3, 1⟩, ⟨2, 50⟩] (buildProductMap testProducts) =
      some (Error.productUnavailable 3) ∧
    checkIfCartIsInStock [⟨1, 2⟩, ⟨2, 50⟩] (buildProductMap testProducts) =
      some (Error.insufficientStock "Test Product 2") :=
  ⟨((checkIfCartIsInStock_fail_fast [⟨1, 2⟩, ⟨3, 1⟩, ⟨2, 50⟩]
      (buildProductMap testProducts)).2.1 [⟨1, 2⟩] ⟨3, 1⟩ [⟨2, 50⟩] rfl
      (by decide)).1 (by decide),
   ((checkIfCartIsInStock_fail_fast [⟨1, 2⟩, ⟨2, 50⟩]
      (buildProductMap testProducts)).2.1 [⟨1, 2⟩] ⟨2, 50⟩ [] rfl
      (by decide)).2 ⟨2, "Test Product 2", 19.99, 20⟩ rfl (by decide)⟩

/-- C3 (counterexample): for a product priced 0.1 and stocked at 10, the cart
of 3 units passes the stock check, and the total that `calculateTotalPrice`
returns is a `float64` whose value is not the exact sum `0.1 * 3`, nor 3 times
the value of the `float64` that holds 0.1, and which is not even the `float64`
nearest to 0.3. -/
theorem calculateTotalPrice_not_exact_sum :
    checkIfCartIsInStock tenthCart (buildProductMap tenthProducts) = none ∧
    (calculateTotalPrice tenthCart (buildProductMap tenthProducts)).value ≠
      some ((0.1 : ℚ) * 3) ∧
    (calculateTotalPrice tenthCart (buildProductMap tenthProducts)).value ≠
      (Float64.ofRat 0.1).value.map (fun price => price * 3) ∧
    calculateTotalPrice tenthCart (buildProductMap tenthProducts) ≠ Float64.ofRat 0.3 := by
  decide!

/-- C3 (amended): for every cart that passes `checkIfCartIsInStock` against a
product map, `calculateTotalPrice` is the `float64` sum, accumulated from `+0`
over all cart lines in order (a line that repeats a product id is counted
again), of the `float64` product of the mapped product's unit price and the
line's quantity; and a `createOrder` that ends without error on this cart
returns that value as its total. -/
theorem calculateTotalPrice_float_sum (cartItems : List CartItem) (products : ProductMap)
    (hstock : checkIfCartIsInStock cartItems products = none) :
    ∃ amounts : List Float64,
      List.Forall₂ (fun item amount => ∃ p, products item.ProductID = some p ∧
        amount = Float64.mul (Float64.ofRat p.Price) (Float64.ofInt item.Quantity))
        cartItems amounts ∧
      calculateTotalPrice cartItems products = amounts.foldl Float64.add 0 ∧
      ∀ (σ : Type) (h : Stores σ) (productList : List Product) (userID : Int) (w : World σ),
        buildProductMap productList = products →
        (createOrder h productList cartItems userID w).1.err = none →
        (createOrder h productList cartItems userID w).1.totalPrice =
          amounts.foldl Float64.add 0 := by
  have havail := ((checkIfCartIsInStock_eq_none_iff cartItems products).mp hstock).2
  have htotal : calculateTotalPrice cartItems products =
      (cartItems.map fun item =>
        Float64.mul (Float64.ofRat (mapGet products item.ProductID).Price)
          (Float64.ofInt item.Quantity)).foldl Float64.add 0 := by
    unfold calculateTotalPrice
    exact calculateTotalPriceLoop_eq_foldl products cartItems 0
  refine ⟨_, ?_, htotal, ?_⟩
  · clear hstock htotal
    induction cartItems with
    | nil => exact List.Forall₂.nil
    | cons item rest ih =>
      obtain ⟨p, hp, _⟩ := havail item (List.mem_cons_self _ _)
      refine List.Forall₂.cons ⟨p, hp, ?_⟩ (ih fun x hx => havail x (List.mem_cons_of_mem _ hx))
      simp only [mapGet, hp, Option.getD_some]
  · intro σ h productList userID w hmap herr
    subst hmap
    rw [← htotal]
    simp only [createOrder, hstock] at herr ⊢
    split at herr
    · simp at herr
    · rename_i hnone
      simp only [hnone]

/-- The cart of the specification: two units of a product priced 9.99 and one
unit of a product priced 19.99 pass the stock check, and the `float64` total is
the `float64` written 39.97. -/
theorem calculateTotalPrice_float_sum_witness :
    checkIfCartIsInStock pricingCart (buildProductMap testProducts) = none ∧
    (∃ amounts : List Float64,
      List.Forall₂ (fun (item : CartItem) (amount : Float64) =>
        ∃ p, buildProductMap testProducts item.ProductID = some p ∧
          amount = Float64.mul (Float64.ofRat p.Price) (Float64.ofInt item.Quantity))
        pricingCart amounts ∧
      calculateTotalPrice pricingCart (buildProductMap testProducts) =
        amounts.foldl Float64.add 0 ∧
      ∀ (σ : Type) (h : Stores σ) (productList : List Product) (userID : Int) (w : World σ),
        buildProductMap productList = buildProductMap testProducts →
        (createOrder h productList pricingCart userID w).1.err = none →
        (createOrder h productList pricingCart userID w).1.totalPrice =
          amounts.foldl Float64.add 0) ∧
    calculateTotalPrice pricingCart (buildProductMap testProducts) = Float64.ofRat 39.97 :=
  ⟨by decide,
   calculateTotalPrice_float_sum pricingCart (buildProductMap testProducts) (by decide),
   by decide!⟩

/-- C4: `getCartItemsID` fails if and only if some line has quantity `≤ 0`; and
when the lines before a line all have positive quantity and that line has
quantity `≤ 0`, the result is the nil slice together with the `invalidQuantity`
error of that line's product id, whatever follows it. -/
theorem getCartItemsID_fails_iff (items : List CartItem) :
    ((getCartItemsID items).2 ≠ none ↔ ∃ item ∈ items, item.Quantity ≤ 0) ∧
    (∀ (pre : List CartItem) (item : CartItem) (post : List CartItem),
      items = pre ++ item :: post → (∀ x ∈ pre, 0 < x.Quantity) → item.Quantity ≤ 0 →
      getCartItemsID items = (none, some (Error.invalidQuantity item.ProductID))) := by
  refine ⟨getCartItemsIDLoop_err_iff items 0 _, ?_⟩
  intro pre item post hsplit hpre hbad
  unfold getCartItemsID
  rw [hsplit]
  exact getCartItemsIDLoop_first_bad pre item post 0 _ hpre hbad

/-- The cart `[(1, 2), (7, 0), (5, -1)]` is refused with the id 7 of its first
offending line; the later offending line (id 5) is not reported. -/
theorem getCartItemsID_fails_iff_witness :
    getCartItemsID [⟨1, 2⟩, ⟨7, 0⟩, ⟨5, -1⟩] = (none, some (Error.invalidQuantity 7)) :=
  (getCartItemsID_fails_iff [⟨1, 2⟩, ⟨7, 0⟩, ⟨5, -1⟩]).2 [⟨1, 2⟩] ⟨7, 0⟩ [⟨5, -1⟩] rfl
    (by decide) (by decide)

/-- C5: on a cart whose lines all have quantity `> 0` (the empty cart
included), `getCartItemsID` succeeds and returns the product ids of the lines,
one per line, in input order, duplicates kept. -/
theorem getCartItemsID_ok (items : List CartItem) (hpos : ∀ x ∈ items, 0 < x.Quantity) :
    getCartItemsID items = (some (items.map fun x : CartItem => x.ProductID), none) ∧
    ∃ ids : List Int, (getCartItemsID items).1 = some ids ∧ ids.length = items.length ∧
      ∀ (i : Nat) (hi : i < items.length), ids[i]? = some (items.get ⟨i, hi⟩).ProductID := by
  have hres : getCartItemsID items =
      (some (items.map fun x : CartItem => x.ProductID), none) := by
    have := getCartItemsIDLoop_ok [] items hpos
    simpa [getCartItemsID] using this
  refine ⟨hres, items.map fun x : CartItem => x.ProductID, by rw [hres], by simp, ?_⟩
  intro i hi
  simp [List.getElem?_map, List.getElem?_eq_getElem hi]

/-- The cart `[(1, 2), (1, 3), (5, 1)]` yields the ids `[1, 1, 5]`, and the
empty cart yields the empty list. -/
theorem getCartItemsID_ok_witness :
    getCartItemsID [⟨1, 2⟩, ⟨1, 3⟩, ⟨5, 1⟩] = (some [1, 1, 5], none) ∧
    getCartItemsID [] = (some [], none) :=
  ⟨(getCartItemsID_ok [⟨1, 2⟩, ⟨1, 3⟩, ⟨5, 1⟩] (by decide)).1,
   (getCartItemsID_ok [] (by decide)).1⟩

/-- C6: when the cart fails `checkIfCartIsInStock`, `createOrder` makes no store
call at all: the log of calls and the state of the stores are those it started
from, so no `UpdateProduct`, no `CreateOrder` and no `CreateOrderItem` happened. -/
theorem createOrder_rejected_cart_no_store_call {σ : Type} (h : Stores σ)
    (products : List Product) (items : List CartItem) (userID : Int) (w : World σ)
    (hrej : checkIfCartIsInStock items (buildProductMap products) ≠ none) :
    (createOrder h products items userID w).2.log = w.log ∧
    (createOrder h products items userID w).2.state = w.state := by
  rw [createOrder_of_rejected h products items userID w hrej]
  exact ⟨rfl, rfl⟩

/-- A cart asking 11 units of a product stocked at 10, and a cart naming the
unknown product 3, leave the log of store calls empty. -/
theorem createOrder_rejected_cart_no_store_call_witness :
    (createOrder (okStores 7) testProducts [⟨1, 11⟩] 1 World.init).2.log = [] ∧
    (createOrder (okStores 7) testProducts [⟨1, 1⟩, ⟨3, 1⟩] 1 World.init).2.log = [] :=
  ⟨(createOrder_rejected_cart_no_store_call (okStores 7) testProducts [⟨1, 11⟩] 1 World.init
      (by decide)).1,
   (createOrder_rejected_cart_no_store_call (okStores 7) testProducts [⟨1, 1⟩, ⟨3, 1⟩] 1
      World.init (by decide)).1⟩

/-- C7 (as the code behaves): with product 1 stocked at 10 and the cart
`[(1, 2), (1, 3)]`, against stores that all succeed, `createOrder` succeeds and
the last `UpdateProduct` for product 1 carries quantity 7, not `10 - (2 + 3) = 5`:
each line is decremented from the fetched snapshot, not from the previous line. -/
theorem createOrder_repeated_product_persists_last_line :
    checkIfCartIsInStock repeatCart (buildProductMap testProducts) = none ∧
    (createOrder (okStores 7) testProducts repeatCart 1 World.init).1.err = none ∧
    (createOrder (okStores 7) testProducts repeatCart 1 World.init).1.orderID = 7 ∧
    (updatedProducts (createOrder (okStores 7) testProducts repeatCart 1 World.init).2.log).map
      Product.Quantity = [8, 7] ∧
    (lastUpdate (createOrder (okStores 7) testProducts repeatCart 1 World.init).2.log 1).map
      Product.Quantity = some 7 := by
  decide

/-- A remark on `createOrder` taken alone: with product 1 stocked at the largest
Go `int` and the cart `[(1, -1)]`, which `getCartItemsID` refuses, the stock
check passes and the product passed to `UpdateProduct` has the negative
quantity `minInt`. -/
theorem createOrder_update_negative_on_overflow :
    ∃ product,
      StoreCall.updateProduct product ∈
        (createOrder (okStores 7) fullStockProducts [⟨1, -1⟩] 1 World.init).2.log ∧
      product.Quantity < 0 :=
  ⟨{ ID := 1, Name := "Test Product 1", Price := 1, Quantity := minInt }, by decide, by decide⟩

/-- When the fetched quantities are Go `int`s and no cart line has a negative
quantity, every product that `createOrder` passes to `UpdateProduct` has
quantity `≥ 0`, also when several lines name the same product. -/
theorem createOrder_updates_nonneg {σ : Type} (h : Stores σ) (products : List Product)
    (items : List CartItem) (userID : Int) (s : σ)
    (hrange : ∀ p ∈ products, p.Quantity ≤ maxInt)
    (hquantity : ∀ item ∈ items, 0 ≤ item.Quantity) :
    ∀ product,
      StoreCall.updateProduct product ∈
        (createOrder h products items userID { state := s, log := [] }).2.log →
      0 ≤ product.Quantity := by
  intro product hmem
  cases hc : checkIfCartIsInStock items (buildProductMap products) with
  | some e =>
    rw [createOrder_of_rejected h products items userID _ (by simp [hc])] at hmem
    simp at hmem
  | none =>
    obtain ⟨orderID, e, _, _, hlog⟩ :=
      createOrder_log_of_inStock h products items userID { state := s, log := [] } hc
    rw [hlog] at hmem
    have hitem : ∃ item ∈ items, product = decrementStock (buildProductMap products) item := by
      cases e <;> simpa [eq_comm] using hmem
    obtain ⟨item, hin, rfl⟩ := hitem
    obtain ⟨p, hp, hle⟩ := ((checkIfCartIsInStock_eq_none_iff _ _).mp hc).2 item hin
    have hmax := hrange p (buildProductMap_mem products _ p hp)
    have hq := hquantity item hin
    have hwrap : wrapInt (p.Quantity - item.Quantity) = p.Quantity - item.Quantity :=
      wrapInt_of_inRange _ (by unfold minInt; omega) (by omega)
    simp only [decrementStock, mapGet, hp, Option.getD_some, hwrap]
    omega

/-- C8: for every product list (its quantities being Go `int`s), user id and
every cart that `createOrder` receives, that is every cart on which
`getCartItemsID` returned no error in `handleCheckout`, every product that
`createOrder` passes to `UpdateProduct` has quantity `≥ 0`: no negative stock
level is persisted, also when several lines name the same product. -/
theorem createOrder_never_persists_negative_stock {σ : Type} (h : Stores σ)
    (products : List Product) (items : List CartItem) (userID : Int) (s : σ)
    (hrange : ∀ p ∈ products, p.Quantity ≤ maxInt)
    (hguard : (getCartItemsID items).2 = none) :
    ∀ product,
      StoreCall.updateProduct product ∈
        (createOrder h products items userID { state := s, log := [] }).2.log →
      0 ≤ product.Quantity := by
  have hquantity : ∀ item ∈ items, 0 ≤ item.Quantity := by
    intro item hin
    by_contra hneg
    have herr := (getCartItemsIDLoop_err_iff items 0 (List.replicate items.length 0)).mpr
      ⟨item, hin, by omega⟩
    exact herr hguard
  exact createOrder_updates_nonneg h products items userID s hrange hquantity

/-- On the test products the cart `[(1, 6), (1, 6)]` passes `getCartItemsID`
and the stock check, twelve units are checked out of a stock of ten, and both
products passed to `UpdateProduct` have a quantity `≥ 0` (they carry 4). -/
theorem createOrder_never_persists_negative_stock_witness :
    (getCartItemsID [⟨1, 6⟩, ⟨1, 6⟩]).2 = none ∧
    checkIfCartIsInStock [⟨1, 6⟩, ⟨1, 6⟩] (buildProductMap testProducts) = none ∧
    (updatedProducts
      (createOrder (okStores 7) testProducts [⟨1, 6⟩, ⟨1, 6⟩] 1
        { state := (), log := [] }).2.log).map Product.Quantity = [4, 4] ∧
    ∀ product,
      StoreCall.updateProduct product ∈
        (createOrder (okStores 7) testProducts [⟨1, 6⟩, ⟨1, 6⟩] 1
          { state := (), log := [] }).2.log →
      0 ≤ product.Quantity :=
  ⟨by decide, by decide, by decide,
   createOrder_never_persists_negative_stock (okStores 7) testProducts [⟨1, 6⟩, ⟨1, 6⟩] 1 ()
     (by decide) (by decide)⟩

/-- C9 (as the code behaves): against stores whose `UpdateProduct` and
`CreateOrderItem` always return an error, `createOrder` on the two-line pricing
cart still makes all five store calls (two `UpdateProduct`, `CreateOrder`, two
`CreateOrderItem`) and returns the order id with a nil error. -/
theorem createOrder_ignores_update_and_item_errors :
    (∀ product s, ((failingStores 7).UpdateProduct product s).1 ≠ none) ∧
    (∀ orderItem s, ((failingStores 7).CreateOrderItem orderItem s).1 ≠ none) ∧
    (createOrder (failingStores 7) testProducts pricingCart 1 World.init).1.err = none ∧
    (createOrder (failingStores 7) testProducts pricingCart 1 World.init).1.orderID = 7 ∧
    (updatedProducts
      (createOrder (failingStores 7) testProducts pricingCart 1 World.init).2.log).length = 2 ∧
    (createdOrders
      (createOrder (failingStores 7) testProducts pricingCart 1 World.init).2.log).length = 1 ∧
    (createdOrderItems
      (createOrder (failingStores 7) testProducts pricingCart 1 World.init).2.log).length = 2 := by
  refine ⟨fun _ _ => by simp [failingStores], fun _ _ => by simp [failingStores], ?_⟩
  decide

/-- C10 (counterexample): on the test products, with stores that all succeed,
the cart of 20 units of product 2 and 10 of product 1 passes the stock check and
`createOrder` ends without error, but the value of the total it returns is not
the exact sum over the created order items of quantity times price (499.7), nor
that sum taken on the values of the `float64`s that hold the prices. -/
theorem createOrder_total_not_exact_sum_of_line_items :
    checkIfCartIsInStock stockCart (buildProductMap testProducts) = none ∧
    (createOrder (okStores 7) testProducts stockCart 1 World.init).1.err = none ∧
    lineItemsTotal (createOrder (okStores 7) testProducts stockCart 1 World.init).2.log =
      499.7 ∧
    (createOrder (okStores 7) testProducts stockCart 1 World.init).1.totalPrice.value ≠
      some (lineItemsTotal
        (createOrder (okStores 7) testProducts stockCart 1 World.init).2.log) ∧
    (createOrder (okStores 7) testProducts stockCart 1 World.init).1.totalPrice.value ≠
      some (lineItemsStoredTotal
        (createOrder (okStores 7) testProducts stockCart 1 World.init).2.log) := by
  decide!

/-- C10 (amended): when the cart passes the stock check and the stores all
succeed, `createOrder` returns no error, exactly one order is created, the
returned total is the `Total` of that order, and it is the `float64` sum over
the created order items, accumulated in creation order from `+0`, of price
times `float64(quantity)`. -/
theorem createOrder_total_is_float_sum_of_line_items {σ : Type} (h : Stores σ)
    (products : List Product) (items : List CartItem) (userID : Int) (s : σ)
    (hstores : h.AllSucceed)
    (hstock : checkIfCartIsInStock items (buildProductMap products) = none) :
    (createOrder h products items userID { state := s, log := [] }).1.err = none ∧
    lineItemsFloatTotal (createOrder h products items userID { state := s, log := [] }).2.log =
      (createOrder h products items userID { state := s, log := [] }).1.totalPrice ∧
    (createdOrders (createOrder h products items userID { state := s, log := [] }).2.log).map
        Order.Total =
      [(createOrder h products items userID { state := s, log := [] }).1.totalPrice] := by
  obtain ⟨orderID, e, hcall, hres, hlog⟩ :=
    createOrder_log_of_inStock h products items userID { state := s, log := [] } hstock
  have he : e = none := by
    have hok := hstores.2.1
      { UserID := userID, Total := calculateTotalPrice items (buildProductMap products),
        Status := "pending", Address := "address" }
      (updateStock h (buildProductMap products) items { state := s, log := [] }).state
    rw [hcall] at hok
    exact hok
  subst he
  rw [hres, hlog]
  refine ⟨rfl, ?_, ?_⟩
  · simp only [lineItemsFloatTotal, createdOrderItems_append, createdOrderItems_map_update,
      createdOrderItems_map_item, createdOrderItems, List.nil_append, calculateTotalPrice]
    exact (calculateTotalPriceLoop_eq_items (buildProductMap products) orderID items 0).symm
  · simp only [createdOrders_append, createdOrders_map_update, createdOrders_map_item,
      createdOrders, List.nil_append, List.append_nil, List.map_cons, List.map_nil]

/-- On the test products and the pricing cart, with stores that all succeed,
the `float64` sum over the two created order items is the returned total, the
`float64` written 39.97. -/
theorem createOrder_total_is_float_sum_of_line_items_witness :
    ((createOrder (okStores 7) testProducts pricingCart 1 { state := (), log := [] }).1.err
        = none ∧
      lineItemsFloatTotal
          (createOrder (okStores 7) testProducts pricingCart 1
            { state := (), log := [] }).2.log =
        (createOrder (okStores 7) testProducts pricingCart 1
          { state := (), log := [] }).1.totalPrice ∧
      (createdOrders
          (createOrder (okStores 7) testProducts pricingCart 1
            { state := (), log := [] }).2.log).map Order.Total =
        [(createOrder (okStores 7) testProducts pricingCart 1
          { state := (), log := [] }).1.totalPrice]) ∧
    (createOrder (okStores 7) testProducts pricingCart 1
      { state := (), log := [] }).1.totalPrice = Float64.ofRat 39.97 :=
  ⟨createOrder_total_is_float_sum_of_line_items (okStores 7) testProducts pricingCart 1 ()
     ⟨fun _ _ => rfl, fun _ _ => rfl, fun _ _ => rfl⟩ (by decide),
   by decide!⟩

/-! ## Lemmas for the order of the store calls -/

theorem buildProductMap_foldl_key (products : List Product) (m : ProductMap)
    (hm : ∀ k p, m k = some p → p.ID = k) (k : Int) (p : Product)
    (hp : products.foldl (fun m product => mapSet m product.ID product) m k = some p) :
    p.ID = k := by
  induction products generalizing m with
  | nil => exact hm k p hp
  | cons q rest ih =>
    refine ih (mapSet m q.ID q) ?_ hp
    intro k' p' hset
    unfold mapSet at hset
    by_cases hk : k' = q.ID
    · simp only [hk, if_true, Option.some.injEq] at hset
      rw [← hset, hk]
    · simp only [hk, if_false] at hset
      exact hm k' p' hset

theorem buildProductMap_key (products : List Product) (k : Int) (p : Product)
    (hp : buildProductMap products k = some p) : p.ID = k :=
  buildProductMap_foldl_key products emptyMap (fun _ _ h => by simp [emptyMap] at h) k p hp

theorem createOrder_updatedProducts {σ : Type} (h : Stores σ) (products : List Product)
    (items : List CartItem) (userID : Int) (s : σ)
    (hstock : checkIfCartIsInStock items (buildProductMap products) = none) :
    updatedProducts (createOrder h products items userID { state := s, log := [] }).2.log =
      items.map (decrementStock (buildProductMap products)) := by
  obtain ⟨orderID, e, _, _, hlog⟩ :=
    createOrder_log_of_inStock h products items userID { state := s, log := [] } hstock
  rw [hlog]
  cases e <;>
    simp [updatedProducts_append, updatedProducts_map_update, updatedProducts_map_item,
      updatedProducts]

theorem decrementStock_of_valid (products : List Product) (item : CartItem)
    (hrange : ∀ p ∈ products, p.Quantity ≤ maxInt) (hpos : 0 < item.Quantity)
    (havail : LineAvailable (buildProductMap products) item) :
    ∃ snapshot, snapshot ∈ products ∧
      buildProductMap products item.ProductID = some snapshot ∧
      snapshot.ID = item.ProductID ∧
      decrementStock (buildProductMap products) item =
        { snapshot with Quantity := snapshot.Quantity - item.Quantity } := by
  obtain ⟨p, hp, hle⟩ := havail
  have hmem := buildProductMap_mem products _ p hp
  have hmax := hrange p hmem
  refine ⟨p, hmem, hp, buildProductMap_key products _ p hp, ?_⟩
  have hwrap : wrapInt (p.Quantity - item.Quantity) = p.Quantity - item.Quantity :=
    wrapInt_of_inRange _ (by unfold minInt; omega) (by omega)
  simp only [decrementStock, mapGet, hp, Option.getD_some, hwrap]

theorem validCart_pos (products : List Product) (items : List CartItem)
    (hvalid : ValidCart products items) : ∀ x ∈ items, 0 < x.Quantity := by
  intro x hx
  by_contra hneg
  have herr := (getCartItemsIDLoop_err_iff items 0 (List.replicate items.length 0)).mpr
    ⟨x, hx, not_lt.mp hneg⟩
  exact herr hvalid.1

theorem forall₂_map_right_of_forall {α β : Type} (R : α → β → Prop) (f : α → β) (l : List α)
    (hl : ∀ x ∈ l, R x (f x)) : List.Forall₂ R l (l.map f) := by
  induction l with
  | nil => exact List.Forall₂.nil
  | cons a rest ih =>
    exact List.Forall₂.cons (hl a (List.mem_cons_self _ _))
      (ih fun x hx => hl x (List.mem_cons_of_mem _ hx))

/-- C11: for a cart that passes the stock check and stores whose operations all
succeed, the log of `createOrder` is the stock updates (one per line), then one
`CreateOrder` with status "pending", the given user id and the computed total,
then one `CreateOrderItem` per cart line, in cart order, carrying the id that
`CreateOrder` returned, the line's product id and quantity and the unit price of
the mapped product; and `createOrder` returns that id with the total and no
error. -/
theorem createOrder_order_store_calls {σ : Type} (h : Stores σ) (products : List Product)
    (items : List CartItem) (userID : Int) (s : σ)
    (hstores : h.AllSucceed)
    (hstock : checkIfCartIsInStock items (buildProductMap products) = none) :
    ∃ (orderID : Int) (updates : List Product) (orderItems : List OrderItem),
      (h.CreateOrder
        { UserID := userID, Total := calculateTotalPrice items (buildProductMap products),
          Status := "pending", Address := "address" }
        (updateStock h (buildProductMap products) items { state := s, log := [] }).state).1.1 =
          orderID ∧
      (createOrder h products items userID { state := s, log := [] }).2.log =
        updates.map StoreCall.updateProduct ++
          StoreCall.createOrder
            { UserID := userID, Total := calculateTotalPrice items (buildProductMap products),
              Status := "pending", Address := "address" } ::
          orderItems.map StoreCall.createOrderItem ∧
      updates.length = items.length ∧
      List.Forall₂ (fun (item : CartItem) (orderItem : OrderItem) =>
        ∃ p, buildProductMap products item.ProductID = some p ∧
          orderItem = { OrderID := orderID, ProductID := item.ProductID,
                        Quantity := item.Quantity, Price := p.Price }) items orderItems ∧
      (createOrder h products items userID { state := s, log := [] }).1 =
        { orderID := orderID, totalPrice := calculateTotalPrice items (buildProductMap products),
          err := none } := by
  obtain ⟨orderID, e, hcall, hres, hlog⟩ :=
    createOrder_log_of_inStock h products items userID { state := s, log := [] } hstock
  have he : e = none := by
    have hok := hstores.2.1
      { UserID := userID, Total := calculateTotalPrice items (buildProductMap products),
        Status := "pending", Address := "address" }
      (updateStock h (buildProductMap products) items { state := s, log := [] }).state
    rw [hcall] at hok
    exact hok
  subst he
  have havail := ((checkIfCartIsInStock_eq_none_iff _ _).mp hstock).2
  refine ⟨orderID, items.map (decrementStock (buildProductMap products)),
    items.map (newOrderItem (buildProductMap products) orderID), ?_, ?_, by simp, ?_, hres⟩
  · rw [hcall]
  · rw [hlog]
    simp [List.map_map, Function.comp_def]
  · apply forall₂_map_right_of_forall
    intro item hin
    obtain ⟨p, hp, _⟩ := havail item hin
    exact ⟨p, hp, by simp [newOrderItem, mapGet, hp]⟩

/-- On the test products and the pricing cart, with stores that all succeed and
assign the id 7, the cart passes the stock check, the calls are as described,
and the order items carry `(7, 1, 2)` and `(7, 2, 1)` in that order. -/
theorem createOrder_order_store_calls_witness :
    checkIfCartIsInStock pricingCart (buildProductMap testProducts) = none ∧
    (∃ (orderID : Int) (updates : List Product) (orderItems : List OrderItem),
      ((okStores 7).CreateOrder
        { UserID := 1, Total := calculateTotalPrice pricingCart (buildProductMap testProducts),
          Status := "pending", Address := "address" }
        (updateStock (okStores 7) (buildProductMap testProducts) pricingCart
          { state := (), log := [] }).state).1.1 = orderID ∧
      (createOrder (okStores 7) testProducts pricingCart 1 { state := (), log := [] }).2.log =
        updates.map StoreCall.updateProduct ++
          StoreCall.createOrder
            { UserID := 1,
              Total := calculateTotalPrice pricingCart (buildProductMap testProducts),
              Status := "pending", Address := "address" } ::
          orderItems.map StoreCall.createOrderItem ∧
      updates.length = pricingCart.length ∧
      List.Forall₂ (fun (item : CartItem) (orderItem : OrderItem) =>
        ∃ p, buildProductMap testProducts item.ProductID = some p ∧
          orderItem = { OrderID := orderID, ProductID := item.ProductID,
                        Quantity := item.Quantity, Price := p.Price }) pricingCart orderItems ∧
      (createOrder (okStores 7) testProducts pricingCart 1 { state := (), log := [] }).1 =
        { orderID := orderID,
          totalPrice := calculateTotalPrice pricingCart (buildProductMap testProducts),
          err := none }) ∧
    (createdOrderItems
        (createOrder (okStores 7) testProducts pricingCart 1
          { state := (), log := [] }).2.log).map
      (fun orderItem => (orderItem.OrderID, orderItem.ProductID, orderItem.Quantity)) =
      [(7, 1, 2), (7, 2, 1)] :=
  ⟨by decide,
   createOrder_order_store_calls (okStores 7) testProducts pricingCart 1 ()
     ⟨fun _ _ => rfl, fun _ _ => rfl, fun _ _ => rfl⟩ (by decide),
   by decide⟩

theorem validateProduct_ignores_id (product : Product) (id : Int) :
    validateProduct { product with ID := id } = validateProduct product := rfl

theorem decrementStock_id (products : List Product) (item : CartItem)
    (havail : LineAvailable (buildProductMap products) item) :
    (decrementStock (buildProductMap products) item).ID = item.ProductID := by
  obtain ⟨p, hp, _⟩ := havail
  simp only [decrementStock, mapGet, hp, Option.getD_some]
  exact buildProductMap_key products _ p hp

/-- C12: `validateProduct` accepts a product if and only if its name is not
empty, its price is greater than zero and its quantity is not negative; the name
is checked first, then the price, then the quantity, so the payload with empty
name, price 0 and quantity -1 gets the name-required error; and
`handleCreateProduct` answers a product that `validateProduct` rejects by
`WriteError` with status 400 and that error, without calling `CreateProduct`. -/
theorem validateProduct_accepts_iff :
    (∀ product : Product, validateProduct product = none ↔
      product.Name ≠ "" ∧ 0 < product.Price ∧ 0 ≤ product.Quantity) ∧
    (∀ product : Product, product.Name = "" →
      validateProduct product = some ProductError.nameRequired) ∧
    (∀ product : Product, product.Name ≠ "" → product.Price ≤ 0 →
      validateProduct product = some ProductError.priceNotPositive) ∧
    (∀ product : Product, product.Name ≠ "" → 0 < product.Price → product.Quantity < 0 →
      validateProduct product = some ProductError.quantityNegative) ∧
    validateProduct { ID := 0, Name := "", Price := 0, Quantity := -1 } =
      some ProductError.nameRequired ∧
    (∀ (σ : Type) (h : ProductStore σ) (decoded : Product) (s : σ) (err : ProductError),
      validateProduct decoded = some err →
      (handleCreateProduct h (Except.ok decoded) s).response =
        Response.writeError 400 err ∧
      (handleCreateProduct h (Except.ok decoded) s).created = [] ∧
      (handleCreateProduct h (Except.ok decoded) s).state = s) := by
  refine ⟨?_, ?_, ?_, ?_, ?_, ?_⟩
  · intro product
    unfold validateProduct
    by_cases hn : product.Name = ""
    · simp [hn]
    · by_cases hp : product.Price ≤ 0
      · simp [hn, hp, not_lt.mpr hp]
      · by_cases hq : product.Quantity < 0
        · simp [hn, hp, hq, not_le.mpr hq]
        · simp [hn, hp, hq, not_le.mp hp, not_lt.mp hq]
  · intro product hn
    simp [validateProduct, hn]
  · intro product hn hp
    simp [validateProduct, hn, hp]
  · intro product hn hp hq
    simp [validateProduct, hn, not_le.mpr hp, hq]
  · simp [validateProduct]
  · intro σ h decoded s err herr
    have hv : validateProduct { decoded with ID := 0 } = some err := by
      rw [validateProduct_ignores_id]
      exact herr
    simp [handleCreateProduct, hv, StatusBadRequest]

/-- The invalid payload of the tests, posted to the mock store holding the test
products: the answer is status 400 with the name-required error and the store
still holds the two test products. -/
theorem validateProduct_accepts_iff_witness :
    (handleCreateProduct mockProductStore (Except.ok invalidPayload) testProducts).response =
      Response.writeError 400 ProductError.nameRequired ∧
    (handleCreateProduct mockProductStore (Except.ok invalidPayload) testProducts).created = [] ∧
    (handleCreateProduct mockProductStore (Except.ok invalidPayload) testProducts).state =
      testProducts :=
  validateProduct_accepts_iff.2.2.2.2.2 (List Product) mockProductStore invalidPayload
    testProducts ProductError.nameRequired (by decide)

/-- C13: for a valid cart (both `getCartItemsID` and `checkIfCartIsInStock`
pass) over products whose quantities are Go `int`s, `createOrder` calls
`UpdateProduct` once per cart line, in cart order, with the mapped product of
the fetched list in which only `Quantity` is replaced, by the snapshot quantity
minus the line's quantity; and for the last line that names a product, the last
`UpdateProduct` for that product carries the snapshot quantity minus that
line's quantity alone, whatever earlier lines named the same product. -/
theorem createOrder_stock_updates_from_snapshot {σ : Type} (h : Stores σ)
    (products : List Product) (items : List CartItem) (userID : Int) (s : σ)
    (hrange : ∀ p ∈ products, p.Quantity ≤ maxInt)
    (hvalid : ValidCart products items) :
    List.Forall₂ (fun (item : CartItem) (written : Product) =>
        ∃ snapshot, snapshot ∈ products ∧
          buildProductMap products item.ProductID = some snapshot ∧
          written = { snapshot with Quantity := snapshot.Quantity - item.Quantity })
      items
      (updatedProducts (createOrder h products items userID { state := s, log := [] }).2.log) ∧
    (∀ (pre : List CartItem) (item : CartItem) (post : List CartItem),
      items = pre ++ item :: post → (∀ x ∈ post, x.ProductID ≠ item.ProductID) →
      ∃ snapshot, buildProductMap products item.ProductID = some snapshot ∧
        lastUpdate (createOrder h products items userID { state := s, log := [] }).2.log
            item.ProductID =
          some { snapshot with Quantity := snapshot.Quantity - item.Quantity }) := by
  have hpos := validCart_pos products items hvalid
  have havail := ((checkIfCartIsInStock_eq_none_iff _ _).mp hvalid.2).2
  have hupd := createOrder_updatedProducts h products items userID s hvalid.2
  refine ⟨?_, ?_⟩
  · rw [hupd]
    apply forall₂_map_right_of_forall
    intro item hin
    obtain ⟨snapshot, hmem, hp, _, hdec⟩ :=
      decrementStock_of_valid products item hrange (hpos item hin) (havail item hin)
    exact ⟨snapshot, hmem, hp, hdec⟩
  · intro pre item post hsplit hpost
    have hin : item ∈ items := by simp [hsplit]
    obtain ⟨snapshot, _, hp, hid, hdec⟩ :=
      decrementStock_of_valid products item hrange (hpos item hin) (havail item hin)
    refine ⟨snapshot, hp, ?_⟩
    have hkeep := decrementStock_id products item (havail item hin)
    have hdrop : (post.map (decrementStock (buildProductMap products))).filter
        (fun product => product.ID = item.ProductID) = [] := by
      rw [List.filter_eq_nil_iff]
      intro written hw
      obtain ⟨x, hx, rfl⟩ := List.mem_map.mp hw
      have hxin : x ∈ items := by simp [hsplit, hx]
      simpa [decrementStock_id products x (havail x hxin)] using hpost x hx
    have hcons : (decrementStock (buildProductMap products) item ::
        post.map (decrementStock (buildProductMap products))).filter
        (fun product => product.ID = item.ProductID) =
        [decrementStock (buildProductMap products) item] := by
      rw [List.filter_cons_of_pos (by simpa using hkeep), hdrop]
    unfold lastUpdate
    rw [hupd, hsplit, List.map_append, List.map_cons, List.filter_append, hcons, ← hdec]
    simp

/-- On the test products the cart `[(1, 2), (1, 3)]` is valid, and the last
`UpdateProduct` for product 1 carries the snapshot quantity minus 3. -/
theorem createOrder_stock_updates_from_snapshot_witness :
    ValidCart testProducts repeatCart ∧
    ∃ snapshot, buildProductMap testProducts 1 = some snapshot ∧
      lastUpdate
          (createOrder (okStores 7) testProducts repeatCart 1 { state := (), log := [] }).2.log
          1 =
        some { snapshot with Quantity := snapshot.Quantity - 3 } :=
  ⟨⟨by decide, by decide⟩,
   (createOrder_stock_updates_from_snapshot (okStores 7) testProducts repeatCart 1 ()
      (by decide) ⟨by decide, by decide⟩).2 [⟨1, 2⟩] ⟨1, 3⟩ [] rfl (by decide)⟩

end Cart
